import Mathlib

/-!
Shallow embedding of the Instagram Insights API service (`app.py`) and proofs
about its derived-metric helpers, its upstream-call retry loop, and its
endpoint-level post-processing.

Python floats are modelled as exact rationals (`ℚ`), Python ints as `ℤ`/`ℕ`,
and Python dictionaries coming from upstream JSON payloads as structures.
-/

set_option linter.unusedVariables false

namespace InsApi

/-- Embedding of the pydantic model `GrowthTrend` (app.py, lines 47-51). -/
structure GrowthTrend where
  metric : String
  current_value : ℚ
  previous_value : ℚ
  growth_rate : ℚ
deriving Repr, DecidableEq

/-- Embedding of `calculate_growth` (app.py, lines 335-349): percentage change
when the previous value is positive, otherwise the zero-baseline policy
(100 for a positive current value, 0 otherwise). -/
def calculate_growth (current_value previous_value : ℚ) (metric_name : String) :
    GrowthTrend :=
  { metric := metric_name
    current_value := current_value
    previous_value := previous_value
    growth_rate :=
      if previous_value > 0 then
        ((current_value - previous_value) / previous_value) * 100
      else if current_value > 0 then 100 else 0 }

/-- Engagement data for a post as returned by the Graph API
(`like_count`, `comments_count` fields requested in `get_post_engagement`). -/
structure EngagementData where
  like_count : ℤ
  comments_count : ℤ
deriving Repr, DecidableEq

/-- Embedding of `calculate_engagement_score` (app.py, lines 292-297): the sum
of likes and comments; the `media_type` argument is accepted but unused. -/
def calculate_engagement_score (engagement_data : EngagementData)
    (media_type : String) : ℤ :=
  engagement_data.like_count + engagement_data.comments_count

/-- C1: for every pair of values, `calculate_growth` returns a `GrowthTrend`
whose `growth_rate` is `(current - previous) / previous * 100` when
`previous > 0`, is `100` when `previous = 0` and `current > 0`, and is `0`
when `previous = 0` and `current = 0`. -/
theorem calculate_growth_rate_cases (current previous : ℚ) (name : String) :
    (previous > 0 →
      (calculate_growth current previous name).growth_rate
        = (current - previous) / previous * 100)
    ∧ (previous = 0 → current > 0 →
      (calculate_growth current previous name).growth_rate = 100)
    ∧ (previous = 0 → current = 0 →
      (calculate_growth current previous name).growth_rate = 0) := by
  refine ⟨fun hp => ?_, fun hp hc => ?_, fun hp hc => ?_⟩
  · simp [calculate_growth, hp]
  · simp [calculate_growth, hp, hc]
  · simp [calculate_growth, hp, hc]

/-- Witness for C1 at the spec's own examples: growth 1100 from 1000 is 10%,
growth 100 from 0 is 100, growth 0 from 0 is 0. -/
theorem calculate_growth_rate_cases_witness :
    (calculate_growth 1100 1000 "X").growth_rate = 10
    ∧ (calculate_growth 100 0 "Y").growth_rate = 100
    ∧ (calculate_growth 0 0 "Z").growth_rate = 0 := by
  refine ⟨?_, ?_, ?_⟩
  · rw [(calculate_growth_rate_cases 1100 1000 "X").1 (by norm_num)]; norm_num
  · exact (calculate_growth_rate_cases 100 0 "Y").2.1 rfl (by norm_num)
  · exact (calculate_growth_rate_cases 0 0 "Z").2.2 rfl rfl

/-- C10: for strictly negative previous values `calculate_growth` takes the
zero-baseline branch (rate 100 for positive current value, 0 otherwise); the
percentage-change division is only reached when the previous value is
positive. -/
theorem calculate_growth_negative_previous (current previous : ℚ) (name : String)
    (h : previous < 0) :
    (calculate_growth current previous name).growth_rate
      = if current > 0 then 100 else 0 := by
  have hnp : ¬ previous > 0 := by linarith
  simp only [calculate_growth, hnp, if_false]

/-- Witness for C10 at `previous = -5`: a positive current value yields rate
100, a non-positive one yields 0. -/
theorem calculate_growth_negative_previous_witness :
    ((-5 : ℚ) < 0)
    ∧ (calculate_growth 3 (-5) "A").growth_rate = 100
    ∧ (calculate_growth (-2) (-5) "B").growth_rate = 0 := by
  refine ⟨by norm_num, ?_, ?_⟩
  · rw [calculate_growth_negative_previous 3 (-5) "A" (by norm_num)]; norm_num
  · rw [calculate_growth_negative_previous (-2) (-5) "B" (by norm_num)]; norm_num

/-- C5: for non-negative like and comment counts the engagement score is
exactly their sum, independently of the `media_type` argument. -/
theorem calculate_engagement_score_sum (d : EngagementData) (mt mt2 : String)
    (h1 : 0 ≤ d.like_count) (h2 : 0 ≤ d.comments_count) :
    calculate_engagement_score d mt = d.like_count + d.comments_count
    ∧ calculate_engagement_score d mt = calculate_engagement_score d mt2 :=
  ⟨rfl, rfl⟩

/-- Witness for C5 at the test suite's example: 100 likes and 10 comments give
score 110 for any media type. -/
theorem calculate_engagement_score_sum_witness :
    (0 : ℤ) ≤ 100 ∧ (0 : ℤ) ≤ 10
    ∧ calculate_engagement_score ⟨100, 10⟩ "IMAGE" = 110
    ∧ calculate_engagement_score ⟨100, 10⟩ "IMAGE"
        = calculate_engagement_score ⟨100, 10⟩ "VIDEO" := by
  have h := calculate_engagement_score_sum ⟨100, 10⟩ "IMAGE" "VIDEO"
    (by decide) (by decide)
  exact ⟨by decide, by decide, by rw [h.1]; decide, h.2⟩

/-- Embedding of FastAPI's `HTTPException` as raised by `make_api_call`: a
status code together with a human-readable detail string. -/
structure HTTPException where
  status_code : Nat
  detail : String
deriving Repr, DecidableEq

/-- Outcome of one upstream HTTP attempt inside `make_api_call`
(app.py, lines 228-258), as observed by the surrounding Python code:
a 2xx response with a decoded JSON body, a 2xx response whose body fails JSON
decoding (`ValueError` from `response.json()`), a 429 response with an
optional numeric `Retry-After` header, any other non-2xx response together
with the error message extracted from its body (`response.json()["error"]
["message"]`, falling back to the stringified `HTTPError`), or a
network-level `requests.RequestException` with its message. -/
inductive Attempt where
  | ok (payload : String)
  | okBadJson (msg : String)
  | rateLimited (retryAfter : Option Nat)
  | httpError (status : Nat) (errMsg : String)
  | netFailure (msg : String)
deriving Repr, DecidableEq

/-- Observable outcome of `make_api_call`: the returned payload or the raised
`HTTPException`, together with how many upstream requests were issued and the
list of `time.sleep` durations performed. -/
structure CallOutcome where
  result : Except HTTPException String
  requests : Nat
  sleeps : List Nat
deriving Repr

/-- Detail string of the rate-limit `HTTPException` (app.py, lines 240-243
and 260-262). -/
def rateLimitDetail : String := "Rate limit exceeded. Please try again later."

/-- Embedding of the `while retries < max_retries` loop body of
`make_api_call` (app.py, lines 225-262), starting from retry counter
`retries`. The attempts the upstream would answer are given by the oracle
`attempts : Nat → Attempt`, indexed by the retry counter at which the request
is issued. On a 429 with `retries < max_retries - 1` the code sleeps for the
`Retry-After` value (defaulting to `initial_backoff`) and loops with
`retries + 1`; a 429 on the final permitted attempt raises status 429. All
other outcomes return or raise immediately. When the loop guard fails the
trailing `raise` of status 429 runs. -/
def makeApiCallFrom (attempts : Nat → Attempt)
    (max_retries initial_backoff retries : Nat) : CallOutcome :=
  if retries < max_retries then
    match attempts retries with
    | Attempt.ok payload =>
        { result := Except.ok payload, requests := 1, sleeps := [] }
    | Attempt.okBadJson msg =>
        { result := Except.error ⟨500, "Invalid JSON response: " ++ msg⟩
          requests := 1, sleeps := [] }
    | Attempt.rateLimited retryAfter =>
        let retry_after := retryAfter.getD initial_backoff
        if retries < max_retries - 1 then
          let rest := makeApiCallFrom attempts max_retries initial_backoff
            (retries + 1)
          { result := rest.result, requests := 1 + rest.requests
            sleeps := retry_after :: rest.sleeps }
        else
          { result := Except.error ⟨429, rateLimitDetail⟩
            requests := 1, sleeps := [] }
    | Attempt.httpError status errMsg =>
        { result := Except.error ⟨status, errMsg⟩, requests := 1, sleeps := [] }
    | Attempt.netFailure msg =>
        { result := Except.error ⟨500, "Request failed: " ++ msg⟩
          requests := 1, sleeps := [] }
  else
    { result := Except.error ⟨429, rateLimitDetail⟩, requests := 0, sleeps := [] }
termination_by max_retries - retries

/-- Embedding of `make_api_call` (app.py, line 225): run the retry loop with
the counter starting at 0; the Python defaults are `max_retries = 3` and
`initial_backoff = 5`. -/
def make_api_call (attempts : Nat → Attempt)
    (max_retries initial_backoff : Nat) : CallOutcome :=
  makeApiCallFrom attempts max_retries initial_backoff 0

lemma makeApiCallFrom_of_not_lt (attempts : Nat → Attempt)
    (max_retries initial_backoff retries : Nat) (h : ¬ retries < max_retries) :
    makeApiCallFrom attempts max_retries initial_backoff retries
      = { result := Except.error ⟨429, rateLimitDetail⟩, requests := 0
          sleeps := [] } := by
  rw [makeApiCallFrom, if_neg h]

lemma makeApiCallFrom_ok (attempts : Nat → Attempt)
    (max_retries initial_backoff retries : Nat) (p : String)
    (h : retries < max_retries) (hok : attempts retries = Attempt.ok p) :
    makeApiCallFrom attempts max_retries initial_backoff retries
      = { result := Except.ok p, requests := 1, sleeps := [] } := by
  rw [makeApiCallFrom, if_pos h, hok]

lemma makeApiCallFrom_httpError (attempts : Nat → Attempt)
    (max_retries initial_backoff retries st : Nat) (m : String)
    (h : retries < max_retries)
    (he : attempts retries = Attempt.httpError st m) :
    makeApiCallFrom attempts max_retries initial_backoff retries
      = { result := Except.error ⟨st, m⟩, requests := 1, sleeps := [] } := by
  rw [makeApiCallFrom, if_pos h, he]

lemma makeApiCallFrom_netFailure (attempts : Nat → Attempt)
    (max_retries initial_backoff retries : Nat) (m : String)
    (h : retries < max_retries) (he : attempts retries = Attempt.netFailure m) :
    makeApiCallFrom attempts max_retries initial_backoff retries
      = { result := Except.error ⟨500, "Request failed: " ++ m⟩
          requests := 1, sleeps := [] } := by
  rw [makeApiCallFrom, if_pos h, he]

lemma makeApiCallFrom_okBadJson (attempts : Nat → Attempt)
    (max_retries initial_backoff retries : Nat) (m : String)
    (h : retries < max_retries) (he : attempts retries = Attempt.okBadJson m) :
    makeApiCallFrom attempts max_retries initial_backoff retries
      = { result := Except.error ⟨500, "Invalid JSON response: " ++ m⟩
          requests := 1, sleeps := [] } := by
  rw [makeApiCallFrom, if_pos h, he]

lemma makeApiCallFrom_retry (attempts : Nat → Attempt)
    (max_retries initial_backoff retries : Nat) (ra : Option Nat)
    (h : retries < max_retries - 1)
    (he : attempts retries = Attempt.rateLimited ra) :
    makeApiCallFrom attempts max_retries initial_backoff retries
      = { result := (makeApiCallFrom attempts max_retries initial_backoff
            (retries + 1)).result
          requests := 1 + (makeApiCallFrom attempts max_retries initial_backoff
            (retries + 1)).requests
          sleeps := ra.getD initial_backoff
            :: (makeApiCallFrom attempts max_retries initial_backoff
              (retries + 1)).sleeps } := by
  have hlt : retries < max_retries := by omega
  rw [makeApiCallFrom, if_pos hlt, he]
  simp [h]

lemma makeApiCallFrom_lastRateLimited (attempts : Nat → Attempt)
    (max_retries initial_backoff retries : Nat) (ra : Option Nat)
    (h : retries < max_retries) (hlast : ¬ retries < max_retries - 1)
    (he : attempts retries = Attempt.rateLimited ra) :
    makeApiCallFrom attempts max_retries initial_backoff retries
      = { result := Except.error ⟨429, rateLimitDetail⟩, requests := 1
          sleeps := [] } := by
  rw [makeApiCallFrom, if_pos h, he]
  simp [hlast]

/-- A run whose first `k` attempts (from counter `retries`) are all 429 and
whose attempt `k` succeeds returns the successful payload after `k + 1`
upstream requests, provided the success happens within the retry bound. -/
lemma makeApiCallFrom_retries_then_ok (attempts : Nat → Attempt)
    (max_retries initial_backoff : Nat) (p : String) :
    ∀ k retries, retries + k < max_retries →
      (∀ i, i < k → ∃ ra, attempts (retries + i) = Attempt.rateLimited ra) →
      attempts (retries + k) = Attempt.ok p →
      (makeApiCallFrom attempts max_retries initial_backoff retries).result
          = Except.ok p
        ∧ (makeApiCallFrom attempts max_retries initial_backoff
            retries).requests = k + 1 := by
  intro k
  induction k with
  | zero =>
      intro retries hk h429 hok
      rw [makeApiCallFrom_ok attempts max_retries initial_backoff retries p
        (by omega) hok]
      exact ⟨rfl, rfl⟩
  | succ n ih =>
      intro retries hk h429 hok
      obtain ⟨ra, hra⟩ := h429 0 (Nat.succ_pos n)
      rw [Nat.add_zero] at hra
      have hlt : retries < max_retries - 1 := by omega
      rw [makeApiCallFrom_retry attempts max_retries initial_backoff retries ra
        hlt hra]
      have hrec := ih (retries + 1) (by omega)
        (fun i hi => by
          have := h429 (i + 1) (by omega)
          simpa [Nat.add_assoc, Nat.add_comm 1 i] using this)
        (by simpa [Nat.add_assoc, Nat.add_comm 1 n] using hok)
      exact ⟨hrec.1, by simp [hrec.2]; omega⟩

/-- When every attempt is answered 429, the loop issues exactly
`max_retries - retries` requests and fails with status 429. -/
lemma makeApiCallFrom_all_rateLimited (attempts : Nat → Attempt)
    (max_retries initial_backoff : Nat)
    (h429 : ∀ i, ∃ ra, attempts i = Attempt.rateLimited ra) :
    ∀ n retries, max_retries - retries = n →
      (makeApiCallFrom attempts max_retries initial_backoff retries).result
          = Except.error ⟨429, rateLimitDetail⟩
        ∧ (makeApiCallFrom attempts max_retries initial_backoff
            retries).requests = max_retries - retries := by
  intro n
  induction n with
  | zero =>
      intro retries hn
      rw [makeApiCallFrom_of_not_lt attempts max_retries initial_backoff retries
        (by omega)]
      exact ⟨rfl, by simp [hn]⟩
  | succ m ih =>
      intro retries hn
      obtain ⟨ra, hra⟩ := h429 retries
      by_cases hlast : retries < max_retries - 1
      · rw [makeApiCallFrom_retry attempts max_retries initial_backoff retries
          ra hlast hra]
        have hrec := ih (retries + 1) (by omega)
        exact ⟨hrec.1, by simp [hrec.2]; omega⟩
      · rw [makeApiCallFrom_lastRateLimited attempts max_retries initial_backoff
          retries ra (by omega) hlast hra]
        exact ⟨rfl, by simp; omega⟩

/-- C4: if the upstream answers 429 on every attempt before attempt `k` and
succeeds at attempt `k < max_retries`, `make_api_call` returns the successful
decoded payload (after exactly `k + 1` requests); if the upstream answers 429
on every attempt, `make_api_call` fails with status 429 after exactly
`max_retries` requests — no further retry. -/
theorem make_api_call_rate_limit_retry (attempts : Nat → Attempt)
    (max_retries initial_backoff k : Nat) (p : String) :
    (k < max_retries →
      (∀ i, i < k → ∃ ra, attempts i = Attempt.rateLimited ra) →
      attempts k = Attempt.ok p →
      (make_api_call attempts max_retries initial_backoff).result = Except.ok p
        ∧ (make_api_call attempts max_retries initial_backoff).requests = k + 1)
    ∧ ((∀ i, ∃ ra, attempts i = Attempt.rateLimited ra) →
      (make_api_call attempts max_retries initial_backoff).result
          = Except.error ⟨429, rateLimitDetail⟩
        ∧ (make_api_call attempts max_retries initial_backoff).requests
          = max_retries) := by
  constructor
  · intro hk h429 hok
    exact makeApiCallFrom_retries_then_ok attempts max_retries initial_backoff p
      k 0 (by omega) (fun i hi => by simpa using h429 i hi) (by simpa using hok)
  · intro h429
    have h := makeApiCallFrom_all_rateLimited attempts max_retries
      initial_backoff h429 max_retries 0 (by omega)
    exact ⟨h.1, by simpa using h.2⟩

/-- Witness for C4 with `max_retries = 3`: an upstream that answers 429 once
and then succeeds returns the payload after 2 requests; an upstream that
always answers 429 fails with status 429 after exactly 3 requests. -/
theorem make_api_call_rate_limit_retry_witness :
    ((make_api_call
        (fun i => if i = 0 then Attempt.rateLimited (some 2)
          else Attempt.ok "body") 3 5).result = Except.ok "body"
      ∧ (make_api_call
        (fun i => if i = 0 then Attempt.rateLimited (some 2)
          else Attempt.ok "body") 3 5).requests = 2)
    ∧ ((make_api_call (fun _ => Attempt.rateLimited none) 3 5).result
          = Except.error ⟨429, rateLimitDetail⟩
      ∧ (make_api_call (fun _ => Attempt.rateLimited none) 3 5).requests = 3) := by
  constructor
  · exact (make_api_call_rate_limit_retry
      (fun i => if i = 0 then Attempt.rateLimited (some 2) else Attempt.ok "body")
      3 5 1 "body").1 (by omega)
      (fun i hi => by interval_cases i; exact ⟨some 2, rfl⟩) rfl
  · exact (make_api_call_rate_limit_retry (fun _ => Attempt.rateLimited none)
      3 5 0 "body").2 (fun i => ⟨none, rfl⟩)

/-- C8: at any iteration of the retry loop, a non-2xx upstream response other
than 429 is translated immediately — one request, no sleep, no retry — into
an `HTTPException` carrying the upstream status code and error message. -/
theorem make_api_call_http_error_immediate (attempts : Nat → Attempt)
    (max_retries initial_backoff retries st : Nat) (m : String)
    (h : retries < max_retries)
    (he : attempts retries = Attempt.httpError st m) :
    makeApiCallFrom attempts max_retries initial_backoff retries
      = { result := Except.error ⟨st, m⟩, requests := 1, sleeps := [] } :=
  makeApiCallFrom_httpError attempts max_retries initial_backoff retries st m h he

/-- Witness for C8: a first-attempt 400 response with message "Bad Request"
makes `make_api_call` fail with status 400 and that message, after a single
request and no sleep. -/
theorem make_api_call_http_error_immediate_witness :
    make_api_call (fun _ => Attempt.httpError 400 "Bad Request") 3 5
      = { result := Except.error ⟨400, "Bad Request"⟩, requests := 1
          sleeps := [] } :=
  make_api_call_http_error_immediate (fun _ => Attempt.httpError 400 "Bad Request")
    3 5 0 400 "Bad Request" (by omega) rfl

lemma requestFailed_ne_invalidJson (m m2 : String) :
    "Request failed: " ++ m ≠ "Invalid JSON response: " ++ m2 := by
  intro h
  have hd := congrArg String.data h
  simp [String.data_append] at hd

/-- C9: at any iteration of the retry loop, a network-level request failure
and a non-JSON response body are each translated immediately into a status
500 `HTTPException` with a descriptive detail message, and the two failure
kinds stay distinguishable: their detail messages always differ. -/
theorem make_api_call_net_and_json_failures (attempts : Nat → Attempt)
    (max_retries initial_backoff retries : Nat) (m m2 : String)
    (h : retries < max_retries) :
    (attempts retries = Attempt.netFailure m →
      makeApiCallFrom attempts max_retries initial_backoff retries
        = { result := Except.error ⟨500, "Request failed: " ++ m⟩
            requests := 1, sleeps := [] })
    ∧ (attempts retries = Attempt.okBadJson m2 →
      makeApiCallFrom attempts max_retries initial_backoff retries
        = { result := Except.error ⟨500, "Invalid JSON response: " ++ m2⟩
            requests := 1, sleeps := [] })
    ∧ "Request failed: " ++ m ≠ "Invalid JSON response: " ++ m2 :=
  ⟨makeApiCallFrom_netFailure attempts max_retries initial_backoff retries m h,
   makeApiCallFrom_okBadJson attempts max_retries initial_backoff retries m2 h,
   requestFailed_ne_invalidJson m m2⟩

/-- Witness for C9: a connection error maps to a 500 with a "Request failed"
detail; an undecodable 2xx body maps to a 500 with an "Invalid JSON response"
detail; the two details differ. -/
theorem make_api_call_net_and_json_failures_witness :
    make_api_call (fun _ => Attempt.netFailure "connection reset") 3 5
        = { result := Except.error ⟨500, "Request failed: connection reset"⟩
            requests := 1, sleeps := [] }
    ∧ make_api_call (fun _ => Attempt.okBadJson "Invalid JSON") 3 5
        = { result := Except.error ⟨500, "Invalid JSON response: Invalid JSON"⟩
            requests := 1, sleeps := [] }
    ∧ "Request failed: connection reset"
        ≠ "Invalid JSON response: Invalid JSON" := by
  refine ⟨?_, ?_, ?_⟩
  · exact (make_api_call_net_and_json_failures
      (fun _ => Attempt.netFailure "connection reset") 3 5 0
      "connection reset" "Invalid JSON" (by omega)).1 rfl
  · exact (make_api_call_net_and_json_failures
      (fun _ => Attempt.okBadJson "Invalid JSON") 3 5 0
      "connection reset" "Invalid JSON" (by omega)).2.1 rfl
  · exact (make_api_call_net_and_json_failures
      (fun _ => Attempt.netFailure "x") 3 5 0
      "connection reset" "Invalid JSON" (by omega)).2.2

/-- Embedding of the pydantic model `PostEngagement` (app.py, lines 34-40).
The `engagement_score` field is declared `float` in the source but always
holds the integer `like_count + comments_count`, so it is modelled as `ℤ`. -/
structure PostEngagement where
  id : String
  permalink : String
  caption : String
  like_count : ℤ
  comments_count : ℤ
  engagement_score : ℤ
deriving Repr, DecidableEq

/-- A media object as returned by `fetch_recent_posts` (fields requested in
app.py, line 268). -/
structure MediaPost where
  id : String
  permalink : String
  caption : String
  media_type : String
deriving Repr, DecidableEq

/-- Stable descending insertion by key: `x` is placed before the first
element whose key is not strictly greater than `key x`. -/
def insertDescBy {α : Type} (key : α → ℤ) (x : α) : List α → List α
  | [] => [x]
  | y :: ys => if key x < key y then y :: insertDescBy key x ys
      else x :: y :: ys

/-- Stable descending sort by key. `sortDescBy key` computes the unique
permutation that is weakly descending on `key` and keeps elements with equal
keys in their input order, which is exactly the output of Python's
`sorted(..., key=key, reverse=True)` (a stable sort whose `reverse=True`
variant is documented to preserve stability). This embeds the sort on
app.py, lines 218-220. -/
def sortDescBy {α : Type} (key : α → ℤ) : List α → List α
  | [] => []
  | x :: xs => insertDescBy key x (sortDescBy key xs)

lemma length_insertDescBy {α : Type} (key : α → ℤ) (x : α) (l : List α) :
    (insertDescBy key x l).length = l.length + 1 := by
  induction l with
  | nil => rfl
  | cons y ys ih =>
      rw [insertDescBy]
      split
      · simp [ih]
      · simp

lemma length_sortDescBy {α : Type} (key : α → ℤ) (l : List α) :
    (sortDescBy key l).length = l.length := by
  induction l with
  | nil => rfl
  | cons x xs ih => rw [sortDescBy, length_insertDescBy, ih]; rfl

lemma mem_insertDescBy {α : Type} (key : α → ℤ) (x z : α) (l : List α) :
    z ∈ insertDescBy key x l ↔ z = x ∨ z ∈ l := by
  induction l with
  | nil => simp [insertDescBy]
  | cons y ys ih =>
      rw [insertDescBy]
      split
      · rw [List.mem_cons, ih, List.mem_cons]
        tauto
      · simp [List.mem_cons]

lemma pairwise_insertDescBy {α : Type} (key : α → ℤ) (x : α) (l : List α)
    (h : l.Pairwise (fun a b => key b ≤ key a)) :
    (insertDescBy key x l).Pairwise (fun a b => key b ≤ key a) := by
  induction l with
  | nil => simp [insertDescBy]
  | cons y ys ih =>
      rw [List.pairwise_cons] at h
      rw [insertDescBy]
      split
      · rename_i hxy
        rw [List.pairwise_cons]
        refine ⟨fun z hz => ?_, ih h.2⟩
        rcases (mem_insertDescBy key x z ys).mp hz with hzx | hzys
        · subst hzx; omega
        · exact h.1 z hzys
      · rename_i hxy
        push_neg at hxy
        rw [List.pairwise_cons, List.pairwise_cons]
        exact ⟨fun z hz => by
          rcases List.mem_cons.mp hz with hzy | hzys
          · subst hzy; omega
          · have := h.1 z hzys; omega,
          h.1, h.2⟩

lemma pairwise_sortDescBy {α : Type} (key : α → ℤ) (l : List α) :
    (sortDescBy key l).Pairwise (fun a b => key b ≤ key a) := by
  induction l with
  | nil => simp [sortDescBy]
  | cons x xs ih => exact pairwise_insertDescBy key x (sortDescBy key xs) ih

lemma filter_insertDescBy_of_eq {α : Type} (key : α → ℤ) (x : α) (s : ℤ)
    (l : List α) (h : key x = s) :
    (insertDescBy key x l).filter (fun a => decide (key a = s))
      = x :: l.filter (fun a => decide (key a = s)) := by
  induction l with
  | nil => simp [insertDescBy, List.filter_cons, h]
  | cons y ys ih =>
      rw [insertDescBy]
      split
      · rename_i hxy
        have hy : ¬ key y = s := by omega
        simp [List.filter_cons, hy, ih]
      · simp [List.filter_cons, h]

lemma filter_insertDescBy_of_ne {α : Type} (key : α → ℤ) (x : α) (s : ℤ)
    (l : List α) (h : ¬ key x = s) :
    (insertDescBy key x l).filter (fun a => decide (key a = s))
      = l.filter (fun a => decide (key a = s)) := by
  induction l with
  | nil => simp [insertDescBy, List.filter_cons, h]
  | cons y ys ih =>
      rw [insertDescBy]
      split
      · simp [List.filter_cons, ih]
      · simp [List.filter_cons, h]

/-- Stability of `sortDescBy`: for any key value `s`, the elements with key
`s` appear in the sorted list exactly as they appear in the input. -/
lemma filter_sortDescBy {α : Type} (key : α → ℤ) (s : ℤ) (l : List α) :
    (sortDescBy key l).filter (fun a => decide (key a = s))
      = l.filter (fun a => decide (key a = s)) := by
  induction l with
  | nil => rfl
  | cons x xs ih =>
      rw [sortDescBy]
      by_cases hx : key x = s
      · rw [filter_insertDescBy_of_eq key x s _ hx, ih]
        simp [List.filter_cons, hx]
      · rw [filter_insertDescBy_of_ne key x s _ hx, ih]
        simp [List.filter_cons, hx]

/-- Embedding of the per-post assembly in `get_top_posts`
(app.py, lines 201-215): one `PostEngagement` per fetched post, with the
like/comment counts returned by `get_post_engagement` and the derived
engagement score. -/
def buildPostEngagement (post : MediaPost) (engagement : EngagementData) :
    PostEngagement :=
  { id := post.id
    permalink := post.permalink
    caption := post.caption
    like_count := engagement.like_count
    comments_count := engagement.comments_count
    engagement_score := calculate_engagement_score engagement post.media_type }

/-- The list `posts_with_engagement` built by `get_top_posts`
(app.py, lines 200-215), with the per-post upstream engagement lookup
abstracted as the oracle `engagementOf`. -/
def postsWithEngagement (posts : List MediaPost)
    (engagementOf : String → EngagementData) : List PostEngagement :=
  posts.map (fun p => buildPostEngagement p (engagementOf p.id))

/-- Embedding of the result computation of `get_top_posts`
(app.py, lines 217-222): stable descending sort of `posts_with_engagement`
by engagement score, truncated to the first `limit` entries. -/
def get_top_posts (limit : Nat) (posts : List MediaPost)
    (engagementOf : String → EngagementData) : List PostEngagement :=
  (sortDescBy (fun x => x.engagement_score)
    (postsWithEngagement posts engagementOf)).take limit

/-- C3: for every fetched post list and limit in 1..50, the top-posts result
has length `min limit posts.length`, is weakly descending in engagement
score, and its posts of any fixed score form a subsequence of the input's
posts of that score — equal scores keep their input order (stable sort). -/
theorem get_top_posts_correct (limit : Nat) (posts : List MediaPost)
    (engagementOf : String → EngagementData) (h1 : 1 ≤ limit)
    (h2 : limit ≤ 50) :
    (get_top_posts limit posts engagementOf).length = min limit posts.length
    ∧ (get_top_posts limit posts engagementOf).Pairwise
        (fun a b => b.engagement_score ≤ a.engagement_score)
    ∧ ∀ s : ℤ, List.Sublist
        ((get_top_posts limit posts engagementOf).filter
          (fun x => decide (x.engagement_score = s)))
        ((postsWithEngagement posts engagementOf).filter
          (fun x => decide (x.engagement_score = s))) := by
  refine ⟨?_, ?_, ?_⟩
  · rw [get_top_posts, List.length_take,
      length_sortDescBy (fun x : PostEngagement => x.engagement_score)]
    rw [postsWithEngagement, List.length_map]
  · exact List.Pairwise.sublist (List.take_sublist _ _)
      (pairwise_sortDescBy (fun x : PostEngagement => x.engagement_score) _)
  · intro s
    have hstep : List.Sublist
        ((get_top_posts limit posts engagementOf).filter
          (fun x => decide (x.engagement_score = s)))
        ((sortDescBy (fun x => x.engagement_score)
            (postsWithEngagement posts engagementOf)).filter
              (fun x => decide (x.engagement_score = s))) :=
      List.Sublist.filter _ (List.take_sublist _ _)
    rwa [filter_sortDescBy (fun x : PostEngagement => x.engagement_score) s
      (postsWithEngagement posts engagementOf)] at hstep

/-- Witness for C3 at the spec's example: two posts with scores 6 and 12 and
`limit = 1` return exactly the post with score 12. -/
theorem get_top_posts_correct_witness :
    (get_top_posts 1
        [⟨"p1", "https://x/1", "first", "IMAGE"⟩,
         ⟨"p2", "https://x/2", "second", "IMAGE"⟩]
        (fun i => if i = "p1" then ⟨5, 1⟩ else ⟨2, 10⟩)).length
      = min 1 2
    ∧ (get_top_posts 1
        [⟨"p1", "https://x/1", "first", "IMAGE"⟩,
         ⟨"p2", "https://x/2", "second", "IMAGE"⟩]
        (fun i => if i = "p1" then ⟨5, 1⟩ else ⟨2, 10⟩)).map
          (fun x => x.engagement_score) = [12] := by
  have h := get_top_posts_correct 1
    [⟨"p1", "https://x/1", "first", "IMAGE"⟩,
     ⟨"p2", "https://x/2", "second", "IMAGE"⟩]
    (fun i => if i = "p1" then ⟨5, 1⟩ else ⟨2, 10⟩)
    (by omega) (by omega)
  exact ⟨h.1, by decide⟩

/-- One element of the upstream insights payload's `data` list as consumed by
`fetch_account_data` (app.py, lines 312-325): a metric name together with the
numeric `value` fields of its `values` entries. -/
structure DataPoint where
  name : String
  values : List ℚ
deriving Repr, DecidableEq

/-- Embedding of `sum(point["values"][0]["value"] for point in l)`: each data
point contributes the value of its first `values` entry; a point with an
empty `values` list makes the Python expression raise `IndexError`, modelled
as `none`. -/
def sumFirstValues : List DataPoint → Option ℚ
  | [] => some 0
  | p :: ps => do
      let v ← p.values.head?
      let s ← sumFirstValues ps
      pure (v + s)

/-- Embedding of the per-metric aggregation in `fetch_account_data`
(app.py, lines 313-325): sum the first value of every data point whose
`name` equals the metric name. -/
def metricSum (data : List DataPoint) (metric : String) : Option ℚ :=
  sumFirstValues (data.filter (fun p => p.name == metric))

/-- The dictionary returned by `fetch_account_data` (app.py, line 330). -/
structure AccountData where
  follower_count : ℚ
  engagement_rate : ℚ
deriving Repr, DecidableEq

/-- Embedding of `fetch_account_data` (app.py, lines 300-332) on the parsed
upstream payload: per-metric sums for `follower_count`, `reach` and
`impressions`, then `engagement_rate = impressions / reach` when `reach > 0`
and 0 otherwise. -/
def fetch_account_data (data : List DataPoint) : Option AccountData := do
  let follower_count ← metricSum data "follower_count"
  let reach ← metricSum data "reach"
  let impressions ← metricSum data "impressions"
  pure { follower_count := follower_count
         engagement_rate := if reach > 0 then impressions / reach else 0 }

/-- Specification-side aggregate: the sum of the (first) values of all data
points sharing the metric name. -/
def totalOf (data : List DataPoint) (metric : String) : ℚ :=
  ((data.filter (fun p => p.name == metric)).map
    (fun p => p.values.headD 0)).sum

lemma sumFirstValues_eq (l : List DataPoint) (h : ∀ p ∈ l, p.values ≠ []) :
    sumFirstValues l = some ((l.map (fun p => p.values.headD 0)).sum) := by
  induction l with
  | nil => rfl
  | cons p ps ih =>
      have hp := h p (List.mem_cons_self p ps)
      have hps : ∀ q ∈ ps, q.values ≠ [] :=
        fun q hq => h q (List.mem_cons_of_mem p hq)
      rw [sumFirstValues]
      cases hv : p.values with
      | nil => exact absurd hv hp
      | cons v vs => simp [hv, ih hps]

/-- C6: for every upstream insights payload on which the Python code does not
raise (every data point has at least one value), `fetch_account_data` returns
the per-metric sums — not averages — over all data points sharing each metric
name, with engagement rate equal to total impressions divided by total reach,
and equal to zero when total reach is zero. -/
theorem fetch_account_data_sums (data : List DataPoint)
    (h : ∀ p ∈ data, p.values ≠ []) :
    fetch_account_data data = some
      { follower_count := totalOf data "follower_count"
        engagement_rate :=
          if totalOf data "reach" > 0
          then totalOf data "impressions" / totalOf data "reach" else 0 }
    ∧ (totalOf data "reach" = 0 →
      fetch_account_data data = some
        { follower_count := totalOf data "follower_count"
          engagement_rate := 0 }) := by
  have hm : ∀ m, metricSum data m = some (totalOf data m) := by
    intro m
    rw [metricSum,
      sumFirstValues_eq _ (fun p hp => h p (List.mem_of_mem_filter hp)),
      totalOf]
  constructor
  · rw [fetch_account_data]
    simp [hm]
  · intro hz
    rw [fetch_account_data]
    simp [hm, hz]

/-- Concrete demonstration payload for the window-aggregation helper: two
`follower_count` data points, one `reach` point and one `impressions`
point. -/
def demoInsightsData : List DataPoint :=
  [⟨"follower_count", [5]⟩, ⟨"follower_count", [7, 100]⟩,
   ⟨"reach", [10]⟩, ⟨"impressions", [30]⟩]

/-- Witness for C6: two `follower_count` points (first values 5 and 7) give
follower count 12 — the sum, not the average 6 — and reach 10 with
impressions 30 give engagement rate 3. -/
theorem fetch_account_data_sums_witness :
    fetch_account_data demoInsightsData
      = some { follower_count := 12, engagement_rate := 3 } := by
  have h := fetch_account_data_sums demoInsightsData (by decide)
  rw [h.1]
  have hf : List.filter (fun p => p.name == "follower_count") demoInsightsData
      = [⟨"follower_count", [5]⟩, ⟨"follower_count", [7, 100]⟩] := by decide
  have hr : List.filter (fun p => p.name == "reach") demoInsightsData
      = [⟨"reach", [10]⟩] := by decide
  have hi : List.filter (fun p => p.name == "impressions") demoInsightsData
      = [⟨"impressions", [30]⟩] := by decide
  simp only [totalOf, hf, hr, hi]
  norm_num

/-- Seconds in a day: `timedelta(days=d)` advances a timestamp by
`d * 86400` seconds. -/
def secondsPerDay : ℤ := 86400

/-- The three instants computed by `get_growth_trends`
(app.py, lines 145-148): `end_date = datetime.now()`,
`start_date = end_date - timedelta(days=days)` and
`mid_date = start_date + timedelta(days=days // 2)`. -/
structure GrowthWindows where
  start_date : ℤ
  mid_date : ℤ
  end_date : ℤ
deriving Repr, DecidableEq

/-- Embedding of the window computation of `get_growth_trends`
(app.py, lines 145-148), with `now` the current timestamp in seconds and
`days` the parsed day count; `days // 2` is Python floor division, which is
`Nat` division here. -/
def growthWindows (now : ℤ) (days : ℕ) : GrowthWindows :=
  { start_date := now - days * secondsPerDay
    mid_date := now - days * secondsPerDay + (days / 2 : ℕ) * secondsPerDay
    end_date := now }

/-- Embedding of the trend computation of `get_growth_trends`
(app.py, lines 150-166), with the upstream window aggregation abstracted as
the oracle `fetch` mapping a (start, end) timestamp pair to the returned
account data: the current data comes from `(mid_date, end_date)`, the
previous data from `(start_date, mid_date)`, each fetched independently. -/
def get_growth_trends (now : ℤ) (days : ℕ) (fetch : ℤ → ℤ → AccountData) :
    List GrowthTrend :=
  let w := growthWindows now days
  let current_data := fetch w.mid_date w.end_date
  let previous_data := fetch w.start_date w.mid_date
  [calculate_growth current_data.follower_count previous_data.follower_count
     "Follower Growth Rate",
   calculate_growth current_data.engagement_rate previous_data.engagement_rate
     "Engagement Rate Change"]

/-- Counterexample to C7 as stated: for a 7-day lookback window the code
produces a 3-day first half and a 4-day second half — the two sub-windows
are not equal. -/
theorem growth_windows_unequal_halves :
    (growthWindows 0 7).mid_date - (growthWindows 0 7).start_date
        = 3 * secondsPerDay
    ∧ (growthWindows 0 7).end_date - (growthWindows 0 7).mid_date
        = 4 * secondsPerDay
    ∧ (growthWindows 0 7).mid_date - (growthWindows 0 7).start_date
        ≠ (growthWindows 0 7).end_date - (growthWindows 0 7).mid_date := by
  refine ⟨by decide, by decide, by decide⟩

/-- C7 (amended): `/growth-trends` splits the `days`-day lookback window at
`start_date + (days // 2)` days; the first half (fetched independently as
previous data) spans `days / 2` days from the window start to the midpoint,
the second half (fetched independently as current data) spans
`days - days / 2` days from the midpoint to now, and the two halves are
equal exactly when `days` is even. -/
theorem growth_windows_split (now : ℤ) (days : ℕ)
    (fetch : ℤ → ℤ → AccountData) :
    (growthWindows now days).mid_date - (growthWindows now days).start_date
        = (days / 2 : ℕ) * secondsPerDay
    ∧ (growthWindows now days).end_date - (growthWindows now days).mid_date
        = ((days : ℤ) - (days / 2 : ℕ)) * secondsPerDay
    ∧ (days % 2 = 0 ↔
        (growthWindows now days).mid_date
            - (growthWindows now days).start_date
          = (growthWindows now days).end_date
            - (growthWindows now days).mid_date)
    ∧ get_growth_trends now days fetch
        = [calculate_growth
            (fetch (growthWindows now days).mid_date now).follower_count
            (fetch (growthWindows now days).start_date
              (growthWindows now days).mid_date).follower_count
            "Follower Growth Rate",
           calculate_growth
            (fetch (growthWindows now days).mid_date now).engagement_rate
            (fetch (growthWindows now days).start_date
              (growthWindows now days).mid_date).engagement_rate
            "Engagement Rate Change"] := by
  refine ⟨?_, ?_, ?_, rfl⟩
  · simp only [growthWindows, secondsPerDay]
    ring
  · simp only [growthWindows, secondsPerDay]
    push_cast
    ring
  · simp only [growthWindows, secondsPerDay]
    omega

/-- Witness for C7 (amended) at a 30-day window ending at timestamp 0: the
first half spans 15 days and equals the second half. -/
theorem growth_windows_split_witness :
    (growthWindows 0 30).mid_date - (growthWindows 0 30).start_date
        = (15 : ℤ) * secondsPerDay
    ∧ (growthWindows 0 30).mid_date - (growthWindows 0 30).start_date
        = (growthWindows 0 30).end_date - (growthWindows 0 30).mid_date := by
  have h := growth_windows_split 0 30 (fun a b => ⟨0, 0⟩)
  exact ⟨by rw [h.1]; decide, h.2.2.1.mp rfl⟩

/-- The allowed `period` values listed in the `enum` keyword of the
`/account-insights` `period` query parameter (app.py, line 66). -/
def accountInsightsPeriodEnum : List String := ["day", "week", "days_28"]

/-- Validation that FastAPI actually enforces on the `period` parameter of
`/account-insights` (app.py, lines 64-67): the parameter is declared as a
plain `str` with a default, and the `enum` keyword passed to `Query` is not
one of its validation parameters — it is only emitted into the generated
OpenAPI schema — so every string value is accepted. -/
def accountInsightsPeriodAccepted (period : String) : Bool := true

/-- The validation C2 asserts for the `period` parameter: membership in the
declared enum. -/
def specPeriodValid (period : String) : Bool :=
  accountInsightsPeriodEnum.contains period

/-- Observable treatment of the `period` value by a `/account-insights`
request: either the request is rejected by parameter validation before any
upstream call, or the upstream insights call is issued carrying that
`period` in its query parameters. -/
inductive InsightsRequestOutcome where
  | rejected
  | upstreamCall (period : String)
deriving Repr, DecidableEq

/-- Embedding of the `/account-insights` handler's treatment of `period`
(app.py, lines 63-128): framework-enforced validation first, then the
upstream call with the given period among its query parameters
(app.py, line 119). -/
def get_account_insights (period : String) : InsightsRequestOutcome :=
  if accountInsightsPeriodAccepted period then
    InsightsRequestOutcome.upstreamCall period
  else
    InsightsRequestOutcome.rejected

/-- C2 fails on the code: the period value "bogus" is outside the enum, yet
the request is not rejected — the upstream call is issued with
`period=bogus`, because the `enum` keyword of FastAPI's `Query` documents
but does not validate. -/
theorem account_insights_invalid_period_not_rejected :
    specPeriodValid "bogus" = false
    ∧ get_account_insights "bogus"
        = InsightsRequestOutcome.upstreamCall "bogus"
    ∧ get_account_insights "bogus" ≠ InsightsRequestOutcome.rejected := by
  refine ⟨by decide, rfl, by decide⟩

end InsApi
